import Mathlib

/-!
Verification of the NeuralLearn backend (`backend/rag_system.py`,
`backend/server.py`, `backend/knowledge_graph.py`, `backend/database.py`)
against its natural-language specification.

The Python source is shallowly embedded: pure logic becomes Lean
functions, Python exceptions become `Except`, Python dicts with a known
key set become structures with `Option` fields (`dict.get` semantics),
and the external collaborators (language-model Provider, Chroma vector
store, PDF loader, JSON parser, NetworkX layout) are parameters whose
contracts come from the spec (§6).
-/

namespace NeuralLearn

/-! ### Chunker (spec §4.1)

Modelled from the spec: the repository configures
`RecursiveCharacterTextSplitter(chunk_size=1000, chunk_overlap=200,
length_function=len)` (rag_system.py lines 51-55) but the splitter
implementation itself lives in the `langchain_text_splitters` library,
not in this repository.  The spec's Chunker contract (§4.1) is the
authority: overlapping fixed-size windows of `chunkSize` characters,
consecutive windows sharing `overlap` characters, covering the input
with no gaps, the last window possibly shorter. -/

def chunkSize : Nat := 1000

def overlap : Nat := 200

/-- Stride between consecutive window start offsets. -/
def stride : Nat := chunkSize - overlap

/-- Modelled from the spec: `split(text, chunkSize=1000, overlap=200)`
produces overlapping windows: if the remaining text fits in one window
it is the final chunk, otherwise emit the first `chunkSize` characters
and continue `stride = chunkSize - overlap` characters further on.
Characters are modelled as a `List Char`. -/
def split (l : List Char) : List (List Char) :=
  if l.length ≤ chunkSize then [l]
  else l.take chunkSize :: split (l.drop stride)
termination_by l.length
decreasing_by
  simp only [List.length_drop]
  have hs : 0 < stride := by decide
  omega

/-- Reassembly described by the spec (§8): keep the first chunk whole and
drop the first `overlap` characters of every later chunk. -/
def reassemble : List (List Char) → List Char
  | [] => []
  | c :: cs => c ++ (cs.map (List.drop overlap)).flatten

theorem split_of_short (l : List Char) (h : l.length ≤ chunkSize) :
    split l = [l] := by
  rw [split]
  simp [h]

theorem split_of_long (l : List Char) (h : ¬ l.length ≤ chunkSize) :
    split l = l.take chunkSize :: split (l.drop stride) := by
  rw [split]
  simp [h]

/-- Dropping `overlap` characters from every chunk of `split l` and
concatenating yields `l` without its first `overlap` characters. -/
theorem join_map_drop_split (l : List Char) :
    ((split l).map (List.drop overlap)).flatten = l.drop overlap := by
  by_cases h : l.length ≤ chunkSize
  · rw [split_of_short l h]
    simp
  · rw [split_of_long l h]
    have ih := join_map_drop_split (l.drop stride)
    simp only [List.map_cons, List.flatten_cons, ih]
    have h1 : (l.take chunkSize).drop overlap = (l.drop overlap).take (chunkSize - overlap) := by
      rw [List.drop_take]
    have h2 : (l.drop stride).drop overlap = (l.drop overlap).drop (chunkSize - overlap) := by
      rw [List.drop_drop, List.drop_drop]
      congr 1
    rw [h1, h2, List.take_append_drop]
termination_by l.length
decreasing_by
  simp only [List.length_drop]
  have hs : 0 < stride := by decide
  omega

/-! ### Decimal representation of owner ids

`index_document` and `_get_vectorstore` key the per-owner Chroma
collection by the interpolated string `"user_" ++ str(user_id) ++ "_docs"`
(rag_system.py lines 69 and 83).  Owner isolation rests on distinct ids
producing distinct collection names, i.e. on injectivity of the decimal
representation, proved here from `Nat.toDigitsCore`. -/

/-- Numeric value of a decimal digit character. -/
def charVal (c : Char) : Nat := c.toNat - 48

/-- Value of a big-endian list of decimal digit characters. -/
def digitsVal (l : List Char) : Nat := l.foldl (fun a c => a * 10 + charVal c) 0

theorem digitsVal_append_singleton (l : List Char) (c : Char) :
    digitsVal (l ++ [c]) = digitsVal l * 10 + charVal c := by
  simp [digitsVal, List.foldl_append]

theorem digitChar_val : ∀ k, k < 10 → charVal (Nat.digitChar k) = k := by decide

theorem toDigitsCore_append (b : Nat) :
    ∀ (fuel n : Nat) (ds : List Char),
      Nat.toDigitsCore b fuel n ds = Nat.toDigitsCore b fuel n [] ++ ds := by
  intro fuel
  induction fuel with
  | zero => intro n ds; simp [Nat.toDigitsCore]
  | succ f ih =>
    intro n ds
    simp only [Nat.toDigitsCore]
    by_cases h : n / b = 0
    · simp [h]
    · simp only [h, if_false]
      rw [ih (n / b) (Nat.digitChar (n % b) :: ds), ih (n / b) [Nat.digitChar (n % b)]]
      simp

theorem digitsVal_toDigitsCore :
    ∀ (fuel n : Nat), n < fuel → digitsVal (Nat.toDigitsCore 10 fuel n []) = n := by
  intro fuel
  induction fuel with
  | zero => intro n hn; omega
  | succ f ih =>
    intro n hn
    simp only [Nat.toDigitsCore]
    by_cases h : n / 10 = 0
    · have hn10 : n < 10 := (Nat.div_eq_zero_iff (by norm_num)).mp h
      simp only [h, if_true, digitsVal, List.foldl_cons, List.foldl_nil]
      rw [Nat.zero_mul, Nat.zero_add, digitChar_val (n % 10) (Nat.mod_lt _ (by norm_num))]
      omega
    · simp only [h, if_false]
      rw [toDigitsCore_append, digitsVal_append_singleton]
      have hdiv : n / 10 < f := by
        have h1 : n / 10 < n := Nat.div_lt_self (by omega) (by norm_num)
        omega
      rw [ih (n / 10) hdiv, digitChar_val (n % 10) (Nat.mod_lt _ (by norm_num))]
      omega

theorem digitsVal_repr (n : Nat) : digitsVal (Nat.repr n).data = n :=
  digitsVal_toDigitsCore (n + 1) n (Nat.lt_succ_self n)

theorem repr_injective {m n : Nat} (h : Nat.repr m = Nat.repr n) : m = n := by
  have hd : (Nat.repr m).data = (Nat.repr n).data := by rw [h]
  have hm := digitsVal_repr m
  rw [hd, digitsVal_repr n] at hm
  exact hm.symm

/-! ### Data model (spec §3, rag_system.py)

LangChain `Document` values carry a text payload and a metadata dict.
The only metadata keys this code ever reads or writes are `user_id` and
`doc_id` (written by `index_document`, lines 65-67) and `section` (read
by the retrieval filter, line 113); each is modelled as an `Option`
field, `none` meaning the key is absent, matching `dict.get`. -/

structure ChunkMetadata where
  user_id : Option Nat
  doc_id : Option Nat
  sectionTag : Option String
  deriving DecidableEq, Repr

structure Document where
  page_content : String
  metadata : ChunkMetadata
  deriving DecidableEq, Repr

/-- The external Chroma store (spec §2, §6): a map from collection name
to the ordered list of documents added to that collection. -/
def Store : Type := String → List Document

/-- Chat message, for conversation history and the generation call. -/
structure ChatMessage where
  role : String
  content : String
  deriving DecidableEq, Repr

/-- The structured rewrite output: the TypedDict `Search` with keys
`query` and `section` (rag_system.py lines 92-102). -/
structure StructuredQuery where
  query : String
  sectionTag : String
  deriving DecidableEq, Repr

/-- Python exceptions observable in the embedded code. -/
inductive Err where
  /-- A `KeyError` from a missing dict key. -/
  | keyError (key : String)
  /-- Injected failure of an external collaborator (Provider, loader,
  vector store). -/
  | external (msg : String)
  deriving DecidableEq, Repr

/-- The external embedding/generation Provider (spec §6), with each
entry point allowed to fail. `completeStructured` is
`structured_llm.invoke`, `chat` is `llm.invoke` on a message list,
`complete` is `llm.ainvoke` on a bare prompt string, `embed` is the
embedding call made on add. -/
structure Provider where
  completeStructured : String → Except Err StructuredQuery
  chat : List ChatMessage → Except Err String
  complete : String → Except Err String
  embed : String → Except Err (List Int)

/-- The collection key `f"user_{user_id}_docs"` (rag_system.py lines 69 and 83). -/
def collectionName (user_id : Nat) : String :=
  "user_" ++ Nat.repr user_id ++ "_docs"

theorem collectionName_injective {a b : Nat}
    (h : collectionName a = collectionName b) : a = b := by
  apply repr_injective
  have hd : (collectionName a).data = (collectionName b).data := by rw [h]
  simp only [collectionName, String.data_append] at hd
  rw [List.append_assoc, List.append_assoc] at hd
  have h1 := List.append_cancel_left hd
  have h2 := List.append_cancel_right h1
  exact String.ext h2

/-! ### Indexer (rag_system.py lines 60-77, spec §4.2) -/

/-- Model of `text_splitter.split_documents`: split each document's text with the
chunker, each resulting chunk inheriting the source document's
metadata. -/
def split_documents (documents : List Document) : List Document :=
  documents.flatMap fun d =>
    (split d.page_content.data).map fun t =>
      { page_content := String.mk t, metadata := d.metadata }

/-- The metadata-tagging loop of `index_document` (lines 65-67):
`chunk.metadata['user_id'] = user_id; chunk.metadata['doc_id'] = doc_id`. -/
def tagChunks (user_id doc_id : Nat) (chunks : List Document) : List Document :=
  chunks.map fun c =>
    { c with metadata := { c.metadata with user_id := some user_id, doc_id := some doc_id } }

/-- The store after appending `chunks` to collection `name`. -/
def add_result (store : Store) (name : String) (chunks : List Document) : Store :=
  fun n => if n = name then store n ++ chunks else store n

/-- Embed every chunk text via the Provider; the first failure
propagates. -/
def embedAll (P : Provider) : List Document → Except Err (List (List Int))
  | [] => .ok []
  | c :: cs =>
    match P.embed c.page_content with
    | .error e => .error e
    | .ok v =>
      match embedAll P cs with
      | .error e => .error e
      | .ok vs => .ok (v :: vs)

/-- Model of `vectorstore.add_documents(chunks)`: embeds every chunk via the
Provider (any embedding failure propagates) and appends the chunks to
the named collection. -/
def add_documents (P : Provider) (store : Store) (name : String)
    (chunks : List Document) : Except Err Store :=
  match embedAll P chunks with
  | .error e => .error e
  | .ok _ => .ok (add_result store name chunks)

/-- Model of `RAGSystem.index_document`.  The PDF loader is an external
collaborator (spec §6 `DocumentLoader.load`); its outcome for the given
file is the `loadResult` parameter.  No failure is caught: a loader or
Provider error propagates to the caller. -/
def index_document (P : Provider) (store : Store)
    (loadResult : Except Err (List Document)) (user_id doc_id : Nat) :
    Except Err (Store × Nat) :=
  match loadResult with
  | .error e => .error e
  | .ok documents =>
    let chunks := split_documents documents
    let tagged := tagChunks user_id doc_id chunks
    match add_documents P store (collectionName user_id) tagged with
    | .error e => .error e
    | .ok store2 => .ok (store2, tagged.length)

/-! ### Vector-store search (spec §6)

`Collection.search(queryVector, k, filterPredicate)` is external Chroma
behaviour; per the spec it returns the filtered chunks ordered by
descending similarity, truncated to `k`.  The similarity score of a
stored chunk against the query text is opaque and appears as the `sim`
parameter. -/

def similarity_search (sim : Document → ℚ) (coll : List Document)
    (k : Nat) (pred : Document → Bool) : List Document :=
  ((coll.filter pred).mergeSort fun a b => decide (sim b ≤ sim a)).take k

/-! ### Query pipeline (rag_system.py lines 90-159, spec §4.3) -/

/-- A value stored in the `query` entry of the LangGraph state dict:
`{"user_id": 3}` initially, `{"query": ..., "section": ...}` after the
rewrite stage. -/
inductive QVal where
  | int : Nat → QVal
  | str : String → QVal
  deriving DecidableEq, Repr

/-- The LangGraph `RAGState` TypedDict (rag_system.py lines 24-29).
`query` is a Python dict, modelled as an association list; `answer` is
`NotRequired`, so `none` models the key being absent. -/
structure RAGState where
  question : String
  query : List (String × QVal)
  context : List Document
  messages : List ChatMessage
  answer : Option String
  deriving DecidableEq, Repr

/-- Lookup `d[k]` on a dict expected to hold an int: `KeyError` when absent.
(The string case cannot arise for the keys this pipeline reads as
ints.) -/
def dictGetInt (d : List (String × QVal)) (k : String) : Except Err Nat :=
  match d.lookup k with
  | some (QVal.int n) => .ok n
  | some (QVal.str s) => .error (.external s)
  | none => .error (.keyError k)

/-- Lookup `d[k]` on a dict expected to hold a string. -/
def dictGetStr (d : List (String × QVal)) (k : String) : Except Err String :=
  match d.lookup k with
  | some (QVal.str s) => .ok s
  | some (QVal.int _) => .error (.external k)
  | none => .error (.keyError k)

/-- Model of `_analyze_query`: the structured rewrite.  Its return value
`{"query": search_query}` replaces the whole `query` entry of the
LangGraph state (the `query` channel has no reducer annotation, so
last-value-wins), discarding any previous contents — in particular the
`user_id` put there by `query_documents`. -/
def analyze_query (P : Provider) (st : RAGState) : Except Err RAGState :=
  (P.completeStructured st.question).map fun sq =>
    { st with query := [("query", QVal.str sq.query), ("section", QVal.str sq.sectionTag)] }

/-- The retrieval filter lambda (line 113):
`doc.metadata.get("section") == query["section"]`. -/
def sectionFilter (sectionStr : String) (doc : Document) : Bool :=
  doc.metadata.sectionTag == some sectionStr

/-- Model of `_retrieve` (lines 107-115): reads `state["query"]["user_id"]`
(KeyError when absent), opens the owner's collection, and runs the
similarity search with `k = 5` and the section filter. -/
def retrieve (store : Store) (sim : String → Document → ℚ) (st : RAGState) :
    Except Err RAGState :=
  match dictGetInt st.query "user_id" with
  | .error e => .error e
  | .ok uid =>
    match dictGetStr st.query "query" with
    | .error e => .error e
    | .ok qtext =>
      match dictGetStr st.query "section" with
      | .error e => .error e
      | .ok sectionStr =>
        .ok { st with
          context := similarity_search (sim qtext) (store (collectionName uid)) 5
            (sectionFilter sectionStr) }

/-- The fixed generation instruction (lines 121-124), before the
retrieved context is appended. -/
def generateInstruction : String :=
  "You are an assistant for question-answering tasks. " ++
  "Use the following pieces of retrieved context to answer " ++
  "the question. If you don\x27t know the answer, say that you don\x27t know. " ++
  "Keep the answer concise and clear.\n\n"

/-- Model of `_generate` (lines 117-129): system message holding the instruction
plus the concatenated chunk texts, then the prior conversation, sent to
the Provider. -/
def generate (P : Provider) (st : RAGState) : Except Err RAGState := do
  let docs_content := String.intercalate "\n\n" (st.context.map (·.page_content))
  let answer ← P.chat
    ({ role := "system", content := generateInstruction ++ docs_content } :: st.messages)
  .ok { st with answer := some answer }

/-- The initial LangGraph state built by `query_documents`
(lines 146-150): the raw question, the caller's prior messages, and a
`query` dict holding only `user_id`. -/
def initialState (question : String) (user_id : Nat) (messages : List ChatMessage) :
    RAGState :=
  { question := question
    query := [("user_id", QVal.int user_id)]
    context := []
    messages := messages
    answer := none }

/-- Model of `graph.invoke` on the compiled linear graph
START → analyze_query → retrieve → generate → END (lines 131-140):
run the stages sequentially; a raising stage aborts the run. -/
def graphInvoke (P : Provider) (store : Store) (sim : String → Document → ℚ)
    (st : RAGState) : Except Err RAGState :=
  analyze_query P st >>= retrieve store sim >>= generate P

/-- One retrieved source as returned to the caller (line 154). -/
structure SourceItem where
  content : String
  metadata : ChunkMetadata
  deriving DecidableEq, Repr

/-- The `{answer, sources}` value returned by `query_documents`. -/
structure QueryAnswer where
  answer : String
  sources : List SourceItem
  deriving DecidableEq, Repr

/-- The body of the `try` block of `query_documents` (lines 144-155):
invoke the compiled graph, read `final_state["answer"]` (a `KeyError`
when the key is absent), and package the context documents as
sources. -/
def pipelineAttempt (P : Provider) (store : Store) (sim : String → Document → ℚ)
    (query : String) (user_id : Nat) (messages : List ChatMessage) :
    Except Err QueryAnswer := do
  let final ← graphInvoke P store sim (initialState query user_id messages)
  let a ← match final.answer with
    | some a => Except.ok a
    | none => Except.error (Err.keyError "answer")
  .ok
    { answer := a
      sources := final.context.map fun d =>
        { content := d.page_content, metadata := d.metadata } }

/-- Model of `RAGSystem.query_documents` (lines 142-159): run the pipeline inside
`try`; on any raise, fall back to a direct Provider completion of the
mode-prefixed raw question with no sources.  The fallback Provider call
is not itself guarded: its failure propagates. -/
def query_documents (P : Provider) (store : Store) (sim : String → Document → ℚ)
    (query : String) (user_id : Nat) (mode : String := "Quick Learner")
    (messages : List ChatMessage := []) : Except Err QueryAnswer :=
  match pipelineAttempt P store sim query user_id messages with
  | .ok r => .ok r
  | .error _ =>
    (P.complete (mode ++ ": " ++ query)).map fun t => { answer := t, sources := [] }

/-! ### Quiz submission scoring (server.py lines 225-279) -/

/-- A stored quiz question: a JSON dict whose fields are read with
`dict.get`, hence `Option`-valued. -/
structure QuizQuestion where
  question : Option String
  options : List String
  correct_answer : Option String
  explanation : Option String
  deriving DecidableEq, Repr

/-- The scoring loop of `submit_quiz` (lines 232-238):
`for idx, question in enumerate(quiz.questions)`, counting the indices
where `submission.answers.get(str(idx)) == question.get('correct_answer')`
(Python `==` on two possibly-`None` values). -/
def quizCorrectFrom (answers : List (String × String)) :
    Nat → List QuizQuestion → Nat
  | _, [] => 0
  | idx, q :: qs =>
    (if answers.lookup (Nat.repr idx) == q.correct_answer then 1 else 0) +
      quizCorrectFrom answers (idx + 1) qs

/-- The score rule `score = correct / total if total > 0 else 0` (line 240). -/
def submit_quiz_score (questions : List QuizQuestion)
    (answers : List (String × String)) : ℚ :=
  let correct := quizCorrectFrom answers 0 questions
  let total := questions.length
  if 0 < total then (correct : ℚ) / (total : ℚ) else 0

/-- The count named by the spec: indices `i` whose submitted answer is
an exact string match of question `i`'s `correct_answer` (both
present and equal). -/
def exactMatchFrom (answers : List (String × String)) :
    Nat → List QuizQuestion → Nat
  | _, [] => 0
  | i, q :: qs =>
    (match answers.lookup (Nat.repr i), q.correct_answer with
      | some s, some t => if s = t then 1 else 0
      | _, _ => 0) +
      exactMatchFrom answers (i + 1) qs

/-! ### Progress records (database.py lines 93-104, server.py) -/

/-- A `progress` row.  Column defaults: `mastery_score = 0.0`,
`study_time_minutes = 0`, `quizzes_taken = 0`, `last_studied = now`.
Timestamps are abstract ticks. -/
structure Progress where
  user_id : Nat
  topic : String
  mastery_score : ℚ
  study_time_minutes : Int
  quizzes_taken : Nat
  last_studied : Nat
  deriving DecidableEq, Repr

/-- The progress-update step of `submit_quiz` (lines 252-269):
`existing` is the row found for `(user_id, topic)`, or `none`. -/
def submitQuizProgress (existing : Option Progress) (user_id : Nat)
    (topic : String) (score : ℚ) (now : Nat) : Progress :=
  match existing with
  | some p =>
    { p with
      quizzes_taken := p.quizzes_taken + 1
      mastery_score := (p.mastery_score + score) / 2
      last_studied := now }
  | none =>
    { user_id := user_id
      topic := topic
      mastery_score := score
      study_time_minutes := 0
      quizzes_taken := 1
      last_studied := now }

/-- Model of `update_progress` (server.py lines 292-312): the `/progress/update`
handler's row update, with `minutes` the submitted
`study_time_minutes`. -/
def update_progress (existing : Option Progress) (user_id : Nat)
    (topic : String) (minutes : Int) (now : Nat) : Progress :=
  match existing with
  | some p =>
    { p with
      study_time_minutes := p.study_time_minutes + minutes
      last_studied := now }
  | none =>
    { user_id := user_id
      topic := topic
      mastery_score := 0
      study_time_minutes := minutes
      quizzes_taken := 0
      last_studied := now }

/-! ### Knowledge graph builder (knowledge_graph.py lines 19-80) -/

/-- A node of the graph JSON; `x`/`y` are attached by the layout step
(absent until then, and absent for a node the layout positions dict
does not cover). -/
structure GraphNode where
  id : String
  label : String
  type : String
  x : Option ℚ
  y : Option ℚ
  deriving DecidableEq, Repr

structure GraphEdge where
  source : String
  target : String
  relationship : String
  deriving DecidableEq, Repr

/-- Outcome of the JSON-extraction step (lines 44-50): the regex scan of
the model response plus `json.loads`.  `nodes`/`edges` are `none` when
the parsed object lacks that key (the `'nodes' not in graph_data`
check, line 53); entries are modelled already well-formed, a malformed
entry's `KeyError` being folded into the extraction outcome. -/
structure ParsedGraph where
  nodes : Option (List GraphNode)
  edges : Option (List GraphEdge)
  deriving DecidableEq, Repr

/-- The final `{nodes, edges}` value returned by `build_graph`. -/
structure KGraph where
  nodes : List GraphNode
  edges : List GraphEdge
  deriving DecidableEq, Repr

/-- The fallback graph (lines 74-80). -/
def kgFallback (topic : String) : KGraph :=
  { nodes := [{ id := "main_topic", label := topic, type := "core", x := some 0, y := some 0 }]
    edges := [] }

/-- Model of `KnowledgeGraphBuilder.build_graph`, from the model response
onwards (lines 43-80).  `parseResult` is the outcome of the
JSON-extraction step on the response text; `layout` is the external
`nx.spring_layout` over the node ids and edge pairs, returning a
partial positions map (and allowed to raise).  Every failure inside the
`try` yields the fallback graph; nothing is re-raised. -/
def build_graph (topic : String) (parseResult : Except Err ParsedGraph)
    (layout : List String → List (String × String) →
      Except Err (String → Option (ℚ × ℚ))) : KGraph :=
  match parseResult with
  | .error _ => kgFallback topic
  | .ok gd =>
    match gd.nodes, gd.edges with
    | some nodes, some edges =>
      match layout (nodes.map (·.id)) (edges.map fun e => (e.source, e.target)) with
      | .error _ => kgFallback topic
      | .ok pos =>
        { nodes := nodes.map fun n =>
            match pos n.id with
            | some (px, py) => { n with x := some (px * 300), y := some (py * 300) }
            | none => n
          edges := edges }
    | _, _ => kgFallback topic

/-! ## Claims -/

/-- C6: for all input text T, reassembling `split T` — the first chunk
whole, every later chunk with its first `overlap` (= 200) characters
dropped — reconstructs T exactly: the windows cover T with no gaps and
each shares its `overlap`-character seam with its predecessor. -/
theorem C6_chunker_round_trip (l : List Char) : reassemble (split l) = l := by
  by_cases h : l.length ≤ chunkSize
  · rw [split_of_short l h]
    simp [reassemble]
  · rw [split_of_long l h]
    show l.take chunkSize ++ ((split (l.drop stride)).map (List.drop overlap)).flatten = l
    rw [join_map_drop_split (l.drop stride), List.drop_drop]
    have hco : stride + overlap = chunkSize := by decide
    rw [hco, List.take_append_drop]

/-- C7: input shorter than `chunkSize` (= 1000) yields exactly one
chunk, equal to the input. -/
theorem C7_split_short (l : List Char) (h : l.length < chunkSize) :
    split l = [l] :=
  split_of_short l (Nat.le_of_lt h)

theorem C7_split_short_witness :
    (['h', 'i'] : List Char).length < chunkSize ∧ split ['h', 'i'] = [['h', 'i']] :=
  ⟨by decide, C7_split_short ['h', 'i'] (by decide)⟩

/-- C8: submitting a quiz with score s updates an existing progress
record for (user, topic) to mastery (m + s) / 2 with quizzes_taken
incremented by exactly one, and creates a fresh record with mastery s
and quizzes_taken 1 when none exists. -/
theorem C8_quiz_progress_update (p : Progress) (user_id : Nat) (topic : String)
    (score : ℚ) (now : Nat) :
    (submitQuizProgress (some p) user_id topic score now).mastery_score =
        (p.mastery_score + score) / 2 ∧
    (submitQuizProgress (some p) user_id topic score now).quizzes_taken =
        p.quizzes_taken + 1 ∧
    (submitQuizProgress none user_id topic score now).mastery_score = score ∧
    (submitQuizProgress none user_id topic score now).quizzes_taken = 1 :=
  ⟨rfl, rfl, rfl, rfl⟩

/-- C10: the study-time update adds the submitted minutes and refreshes
last_studied on an existing record, leaving mastery_score and
quizzes_taken untouched; with no existing record it creates one whose
mastery_score is 0 and quizzes_taken is 0 (the column defaults). -/
theorem C10_study_time_update (p : Progress) (user_id : Nat) (topic : String)
    (minutes : Int) (now : Nat) :
    (update_progress (some p) user_id topic minutes now).study_time_minutes =
        p.study_time_minutes + minutes ∧
    (update_progress (some p) user_id topic minutes now).last_studied = now ∧
    (update_progress (some p) user_id topic minutes now).mastery_score =
        p.mastery_score ∧
    (update_progress (some p) user_id topic minutes now).quizzes_taken =
        p.quizzes_taken ∧
    (update_progress none user_id topic minutes now).mastery_score = 0 ∧
    (update_progress none user_id topic minutes now).quizzes_taken = 0 ∧
    (update_progress none user_id topic minutes now).study_time_minutes = minutes :=
  ⟨rfl, rfl, rfl, rfl, rfl, rfl, rfl⟩

/-- C9: whenever the JSON-extraction step yields no object, or the
object lacks the nodes or edges key, or the layout step raises,
`build_graph` returns exactly the single-node fallback graph
(and, being total, never raises). -/
theorem C9_graph_fallback (topic : String)
    (layout : List String → List (String × String) →
      Except Err (String → Option (ℚ × ℚ))) :
    (∀ e, build_graph topic (.error e) layout = kgFallback topic) ∧
    (∀ gd : ParsedGraph, gd.nodes = none →
      build_graph topic (.ok gd) layout = kgFallback topic) ∧
    (∀ gd : ParsedGraph, gd.edges = none →
      build_graph topic (.ok gd) layout = kgFallback topic) ∧
    (∀ (ns : List GraphNode) (es : List GraphEdge) (e : Err),
      layout (ns.map (·.id)) (es.map fun ed => (ed.source, ed.target)) = .error e →
      build_graph topic (.ok { nodes := some ns, edges := some es }) layout =
        kgFallback topic) := by
  refine ⟨fun e => rfl, fun gd hn => ?_, fun gd he => ?_, fun ns es e hl => ?_⟩
  · simp [build_graph, hn]
  · cases hn : gd.nodes with
    | none => simp [build_graph, hn]
    | some ns => simp [build_graph, hn, he]
  · simp [build_graph, hl]

theorem C9_graph_fallback_witness :
    (⟨some [], some []⟩ : ParsedGraph).edges.isSome ∧
    build_graph "topic" (.error (.external "no JSON"))
        (fun _ _ => .error (.external "layout")) = kgFallback "topic" ∧
    build_graph "topic" (.ok ⟨none, some []⟩)
        (fun _ _ => .error (.external "layout")) = kgFallback "topic" ∧
    build_graph "topic" (.ok ⟨some [], none⟩)
        (fun _ _ => .error (.external "layout")) = kgFallback "topic" ∧
    build_graph "topic" (.ok ⟨some [], some []⟩)
        (fun _ _ => .error (.external "layout")) = kgFallback "topic" := by
  refine ⟨rfl, ?_, ?_, ?_, ?_⟩
  · exact (C9_graph_fallback "topic" (fun _ _ => .error (.external "layout"))).1
      (.external "no JSON")
  · exact (C9_graph_fallback "topic" (fun _ _ => .error (.external "layout"))).2.1
      ⟨none, some []⟩ rfl
  · exact (C9_graph_fallback "topic" (fun _ _ => .error (.external "layout"))).2.2.1
      ⟨some [], none⟩ rfl
  · exact (C9_graph_fallback "topic" (fun _ _ => .error (.external "layout"))).2.2.2
      [] [] (.external "layout") rfl

/-- When every stored question has a `correct_answer`, the loop's
Python `==` count (where `None == None` would also count) coincides
with the spec's exact-string-match count. -/
theorem quizCorrectFrom_eq_exactMatchFrom (answers : List (String × String)) :
    ∀ (i : Nat) (qs : List QuizQuestion), (∀ q ∈ qs, q.correct_answer.isSome) →
      quizCorrectFrom answers i qs = exactMatchFrom answers i qs := by
  intro i qs
  induction qs generalizing i with
  | nil => intro _; rfl
  | cons q qs ih =>
    intro hwf
    obtain ⟨t, ht⟩ := Option.isSome_iff_exists.mp (hwf q (List.mem_cons_self q qs))
    simp only [quizCorrectFrom, exactMatchFrom, ht]
    have htail := ih (i + 1) fun q hq => hwf q (List.mem_cons_of_mem _ hq)
    rw [htail]
    congr 1
    cases answers.lookup (Nat.repr i) with
    | none => rfl
    | some s => simp [beq_iff_eq]

/-- C5: with N ≥ 1 stored questions, each carrying a correct answer,
the submission score is (number of exactly matching indices) / N; zero
matches give score 0 and N matches give score 1. -/
theorem C5_quiz_scoring (questions : List QuizQuestion)
    (answers : List (String × String))
    (hN : 0 < questions.length)
    (hwf : ∀ q ∈ questions, q.correct_answer.isSome) :
    submit_quiz_score questions answers =
      (exactMatchFrom answers 0 questions : ℚ) / (questions.length : ℚ) ∧
    (exactMatchFrom answers 0 questions = 0 →
      submit_quiz_score questions answers = 0) ∧
    (exactMatchFrom answers 0 questions = questions.length →
      submit_quiz_score questions answers = 1) := by
  have hEq := quizCorrectFrom_eq_exactMatchFrom answers 0 questions hwf
  have hmain : submit_quiz_score questions answers =
      (exactMatchFrom answers 0 questions : ℚ) / (questions.length : ℚ) := by
    simp [submit_quiz_score, hN, hEq]
  refine ⟨hmain, fun h0 => ?_, fun hall => ?_⟩
  · rw [hmain, h0]
    simp
  · rw [hmain, hall]
    have hne : (questions.length : ℚ) ≠ 0 := by
      exact_mod_cast Nat.pos_iff_ne_zero.mp hN
    exact div_self hne

/-- A small stored quiz used to instantiate C5. -/
def sampleQuestions : List QuizQuestion :=
  [{ question := some "What is 1+1?"
     options := ["A) 2", "B) 3", "C) 4", "D) 5"]
     correct_answer := some "A"
     explanation := some "Basic arithmetic." },
   { question := some "What is 2*2?"
     options := ["A) 2", "B) 4", "C) 6", "D) 8"]
     correct_answer := some "B"
     explanation := none }]

theorem C5_quiz_scoring_witness :
    0 < sampleQuestions.length ∧
    (∀ q ∈ sampleQuestions, q.correct_answer.isSome) ∧
    (submit_quiz_score sampleQuestions [("0", "A"), ("1", "C")] =
        (exactMatchFrom [("0", "A"), ("1", "C")] 0 sampleQuestions : ℚ) /
          (sampleQuestions.length : ℚ) ∧
      (exactMatchFrom [("0", "A"), ("1", "C")] 0 sampleQuestions = 0 →
        submit_quiz_score sampleQuestions [("0", "A"), ("1", "C")] = 0) ∧
      (exactMatchFrom [("0", "A"), ("1", "C")] 0 sampleQuestions =
          sampleQuestions.length →
        submit_quiz_score sampleQuestions [("0", "A"), ("1", "C")] = 1)) :=
  ⟨by decide, by decide,
    C5_quiz_scoring sampleQuestions [("0", "A"), ("1", "C")] (by decide) (by decide)⟩

/-! ### C1: the query-pipeline fallback -/

/-- A Provider whose every call fails — e.g. the hosted service is
unreachable. -/
def downProvider : Provider where
  completeStructured _ := .error (.external "provider down")
  chat _ := .error (.external "provider down")
  complete _ := .error (.external "provider down")
  embed _ := .error (.external "provider down")

/-- The store with no collections yet. -/
def emptyStore : Store := fun _ => []

/-- An arbitrary similarity oracle. -/
def simZero : String → Document → ℚ := fun _ _ => 0

/-- C1 counterexample: with an unreachable Provider, `query_documents`
raises — the fallback path re-enters the Provider and its failure
propagates, so `answerQuery` is not raise-free. -/
theorem C1_counterexample_fallback_raises :
    query_documents downProvider emptyStore simZero "What is RAG?" 1 =
      .error (.external "provider down") := rfl

/-- C1 (amended): when the pipeline raises at any stage, `query_documents`
returns the Provider's completion of the mode-prefixed raw question with
an empty source list — provided that fallback Provider call succeeds; if
the fallback call itself fails, its error propagates to the caller. -/
theorem C1_fallback_on_pipeline_failure (P : Provider) (store : Store)
    (sim : String → Document → ℚ) (query : String) (user_id : Nat)
    (mode : String) (messages : List ChatMessage) (e : Err)
    (hfail : pipelineAttempt P store sim query user_id messages = .error e) :
    (∀ t, P.complete (mode ++ ": " ++ query) = .ok t →
      query_documents P store sim query user_id mode messages =
        .ok { answer := t, sources := [] }) ∧
    (∀ e2, P.complete (mode ++ ": " ++ query) = .error e2 →
      query_documents P store sim query user_id mode messages = .error e2) := by
  constructor <;> intro t ht <;> simp [query_documents, hfail, ht, Except.map]

/-- A Provider whose structured-rewrite call fails but whose plain
completion echoes its prompt. -/
def rewriteFailProvider : Provider where
  completeStructured _ := .error (.external "rewrite failed")
  chat _ := .ok "chat answer"
  complete p := .ok p
  embed _ := .ok []

theorem C1_fallback_on_pipeline_failure_witness :
    pipelineAttempt rewriteFailProvider emptyStore simZero "q" 1 [] =
      .error (.external "rewrite failed") ∧
    ((∀ t, rewriteFailProvider.complete ("Quick Learner" ++ ": " ++ "q") = .ok t →
      query_documents rewriteFailProvider emptyStore simZero "q" 1 "Quick Learner" [] =
        .ok { answer := t, sources := [] }) ∧
    (∀ e2, rewriteFailProvider.complete ("Quick Learner" ++ ": " ++ "q") = .error e2 →
      query_documents rewriteFailProvider emptyStore simZero "q" 1 "Quick Learner" [] =
        .error e2)) :=
  ⟨rfl, C1_fallback_on_pipeline_failure rewriteFailProvider emptyStore simZero "q" 1
    "Quick Learner" [] (.external "rewrite failed") rfl⟩

/-! ### C3: retrieval bounds, and the lost `user_id` -/

/-- A fully healthy Provider: the structured rewrite succeeds (tagging
the query onto the `end` section), chat succeeds, plain completion
echoes its prompt, embeddings succeed. -/
def echoProvider : Provider where
  completeStructured q := .ok { query := q, sectionTag := "end" }
  chat _ := .ok "grounded answer"
  complete p := .ok p
  embed _ := .ok []

/-- C3: the retrieval primitive always returns at most k = 5 chunks, and
a filter matching nothing yields the empty sequence; but the pipeline
itself never reaches generation with that empty context — the rewrite
stage's output replaces the state's `query` dict, dropping `user_id`,
so `_retrieve` raises `KeyError` even with every Provider call healthy,
and the empty `sources` of the reply come from the fallback path
instead. -/
theorem C3_retrieval_bound_and_lost_user_id :
    (∀ (sim : Document → ℚ) (coll : List Document) (pred : Document → Bool),
      (similarity_search sim coll 5 pred).length ≤ 5) ∧
    (∀ (sim : Document → ℚ) (coll : List Document) (pred : Document → Bool),
      coll.filter pred = [] → similarity_search sim coll 5 pred = []) ∧
    graphInvoke echoProvider emptyStore simZero (initialState "What is X?" 1 []) =
      .error (.keyError "user_id") ∧
    query_documents echoProvider emptyStore simZero "What is X?" 1 =
      .ok { answer := "Quick Learner: What is X?", sources := [] } := by
  refine ⟨fun sim coll pred => ?_, fun sim coll pred h => ?_, rfl, rfl⟩
  · exact List.length_take_le 5 _
  · simp [similarity_search, h]

/-- A stored chunk carrying no `section` metadata (as all chunks written
by `index_document` do). -/
def sampleChunk : Document :=
  { page_content := "alpha beta", metadata := { user_id := some 1, doc_id := some 1, sectionTag := none } }

theorem C3_retrieval_bound_witness :
    ([sampleChunk].filter (sectionFilter "end") = []) ∧
    similarity_search (simZero "q") [sampleChunk] 5 (sectionFilter "end") = [] :=
  ⟨by decide,
    C3_retrieval_bound_and_lost_user_id.2.1 (simZero "q") [sampleChunk]
      (sectionFilter "end") (by decide)⟩

/-! ### C4: indexing returns the chunk count; errors surface -/

/-- C4: on success `index_document` returns exactly the number of chunks
the splitter produced, appended to the owner's collection with owner and
document ids stamped on every chunk's metadata; a loader failure or a
Provider (embedding) failure propagates to the caller unhandled. -/
theorem C4_index_document_contract (P : Provider) (store : Store)
    (user_id doc_id : Nat) :
    (∀ e, index_document P store (.error e) user_id doc_id = .error e) ∧
    (∀ docs e,
      embedAll P (tagChunks user_id doc_id (split_documents docs)) = .error e →
      index_document P store (.ok docs) user_id doc_id = .error e) ∧
    (∀ docs store2 n,
      index_document P store (.ok docs) user_id doc_id = .ok (store2, n) →
      n = (split_documents docs).length ∧
      store2 (collectionName user_id) =
        store (collectionName user_id) ++
          tagChunks user_id doc_id (split_documents docs) ∧
      (∀ nm, nm ≠ collectionName user_id → store2 nm = store nm) ∧
      (∀ c ∈ tagChunks user_id doc_id (split_documents docs),
        c.metadata.user_id = some user_id ∧ c.metadata.doc_id = some doc_id)) := by
  refine ⟨fun e => rfl, fun docs e he => ?_, fun docs store2 n hidx => ?_⟩
  · simp [index_document, add_documents, he]
  · cases hemb : embedAll P (tagChunks user_id doc_id (split_documents docs)) with
    | error e => simp [index_document, add_documents, hemb] at hidx
    | ok es =>
      simp [index_document, add_documents, hemb] at hidx
      obtain ⟨hstore, hn⟩ := hidx
      subst hstore
      refine ⟨by rw [← hn]; simp [tagChunks], by simp [add_result], ?_, ?_⟩
      · intro nm hnm
        simp [add_result, hnm]
      · intro c hc
        simp [tagChunks] at hc
        obtain ⟨c0, -, rfl⟩ := hc
        exact ⟨rfl, rfl⟩

/-- The loader outcome for a one-page PDF whose text is shorter than
`chunkSize`. -/
def sampleLoaded : List Document :=
  [{ page_content := "hello world", metadata := { user_id := none, doc_id := none, sectionTag := none } }]

theorem split_documents_sampleLoaded :
    split_documents sampleLoaded =
      [{ page_content := "hello world"
         metadata := { user_id := none, doc_id := none, sectionTag := none } }] := by
  simp only [split_documents, sampleLoaded, List.flatMap_cons, List.flatMap_nil]
  rw [split_of_short _ (by decide)]
  simp

/-- The store produced by the sample indexing run. -/
def sampleStore2 : Store :=
  add_result emptyStore (collectionName 1) (tagChunks 1 7 (split_documents sampleLoaded))

theorem index_document_sample :
    index_document echoProvider emptyStore (.ok sampleLoaded) 1 7 =
      .ok (sampleStore2, 1) := by
  simp only [index_document, sampleStore2, add_documents, split_documents_sampleLoaded,
    tagChunks, List.map_cons, List.map_nil]
  rfl

theorem C4_index_document_contract_witness :
    index_document echoProvider emptyStore (.ok sampleLoaded) 1 7 =
      .ok (sampleStore2, 1) ∧
    (1 = (split_documents sampleLoaded).length ∧
      sampleStore2 (collectionName 1) =
        emptyStore (collectionName 1) ++ tagChunks 1 7 (split_documents sampleLoaded) ∧
      (∀ nm, nm ≠ collectionName 1 → sampleStore2 nm = emptyStore nm) ∧
      (∀ c ∈ tagChunks 1 7 (split_documents sampleLoaded),
        c.metadata.user_id = some 1 ∧ c.metadata.doc_id = some 7)) :=
  ⟨index_document_sample,
    (C4_index_document_contract echoProvider emptyStore 1 7).2.2 sampleLoaded
      sampleStore2 1 index_document_sample⟩

/-! ### C2: per-owner collection isolation -/

/-- The spec's ownership invariant (§3): every chunk stored in owner
`u`'s collection carries `user_id = u` in its metadata. -/
def ownerInv (s : Store) : Prop :=
  ∀ u : Nat, ∀ c ∈ s (collectionName u), c.metadata.user_id = some u

theorem ownerInv_emptyStore : ownerInv emptyStore := fun _ _ hc => nomatch hc

/-- C2: indexing a document for owner A preserves the ownership
invariant, and no chunk written by that indexing run can appear in the
retrieval result of any query by a different owner B — retrieval for B
reads only B's collection, whose chunks all carry `user_id = B`. -/
theorem C2_owner_isolation (P : Provider) (store : Store)
    (docs : List Document) (A B doc_id : Nat) (store2 : Store) (n : Nat)
    (hAB : A ≠ B) (hinv : ownerInv store)
    (hidx : index_document P store (.ok docs) A doc_id = .ok (store2, n)) :
    ownerInv store2 ∧
    (∀ (sim : Document → ℚ) (pred : Document → Bool) (k : Nat),
      ∀ c ∈ tagChunks A doc_id (split_documents docs),
        c ∉ similarity_search sim (store2 (collectionName B)) k pred) ∧
    (∀ (st st2 : RAGState) (sim2 : String → Document → ℚ),
      dictGetInt st.query "user_id" = .ok B →
      retrieve store2 sim2 st = .ok st2 →
      ∀ c ∈ tagChunks A doc_id (split_documents docs), c ∉ st2.context) := by
  have htag : ∀ c ∈ tagChunks A doc_id (split_documents docs),
      c.metadata.user_id = some A := by
    intro c hc
    simp [tagChunks] at hc
    obtain ⟨c0, -, rfl⟩ := hc
    rfl
  have hstore2 : store2 =
      add_result store (collectionName A) (tagChunks A doc_id (split_documents docs)) := by
    cases hemb : embedAll P (tagChunks A doc_id (split_documents docs)) with
    | error e => simp [index_document, add_documents, hemb] at hidx
    | ok es =>
      simp [index_document, add_documents, hemb] at hidx
      exact hidx.1.symm
  have hinv2 : ownerInv store2 := by
    subst hstore2
    intro u c hc
    by_cases hu : collectionName u = collectionName A
    · have huA : u = A := collectionName_injective hu
      subst huA
      simp only [add_result, hu, if_pos] at hc
      rcases List.mem_append.mp hc with hmem | hmem
      · exact hinv u c hmem
      · exact htag c hmem
    · simp only [add_result, hu, if_neg, not_false_iff] at hc
      exact hinv u c hc
  have hmain : ∀ (sim : Document → ℚ) (pred : Document → Bool) (k : Nat),
      ∀ c ∈ tagChunks A doc_id (split_documents docs),
        c ∉ similarity_search sim (store2 (collectionName B)) k pred := by
    intro sim pred k c hc hmem
    have hB : c.metadata.user_id = some B := by
      apply hinv2 B
      exact List.mem_of_mem_filter (List.mem_mergeSort.mp (List.mem_of_mem_take hmem))
    rw [htag c hc] at hB
    exact hAB (Option.some.inj hB)
  refine ⟨hinv2, hmain, ?_⟩
  intro st st2 sim2 hB hret c hc hmem
  simp only [retrieve, hB] at hret
  cases hq : dictGetStr st.query "query" with
  | error e => rw [hq] at hret; cases hret
  | ok qtext =>
    rw [hq] at hret
    cases hs : dictGetStr st.query "section" with
    | error e => rw [hs] at hret; cases hret
    | ok sectionStr =>
      rw [hs] at hret
      cases hret
      exact hmain (sim2 qtext) (sectionFilter sectionStr) 5 c hc hmem

theorem C2_owner_isolation_witness :
    (1 ≠ 2) ∧ ownerInv emptyStore ∧
    index_document echoProvider emptyStore (.ok sampleLoaded) 1 7 =
      .ok (sampleStore2, 1) ∧
    (ownerInv sampleStore2 ∧
      (∀ (sim : Document → ℚ) (pred : Document → Bool) (k : Nat),
        ∀ c ∈ tagChunks 1 7 (split_documents sampleLoaded),
          c ∉ similarity_search sim (sampleStore2 (collectionName 2)) k pred) ∧
      (∀ (st st2 : RAGState) (sim2 : String → Document → ℚ),
        dictGetInt st.query "user_id" = .ok 2 →
        retrieve sampleStore2 sim2 st = .ok st2 →
        ∀ c ∈ tagChunks 1 7 (split_documents sampleLoaded), c ∉ st2.context)) :=
  ⟨by decide, ownerInv_emptyStore, index_document_sample,
    C2_owner_isolation echoProvider emptyStore sampleLoaded 1 2 7 sampleStore2 1
      (by decide) ownerInv_emptyStore index_document_sample⟩

end NeuralLearn
